import Mathlib

/-!
Verification development for the single-file Streamlit application
`src/app.py` ("Data Visualization Studio").  The app loads uploaded CSV/XLSX
files into pandas dataframes, registers them with an in-memory duckdb
connection, lets the user run SQL queries whose result is cached in
`st.session_state["sql_result"]`, renders one of five user-selected chart
types over the active table, and keeps an append-only chat transcript in
`st.session_state.chat_history`.

The embedding below models tables as ordered association lists of named
columns of cells, and each relevant fragment of `app.py` as an explicit
function on that data, with Streamlit session state passed explicitly.
-/

namespace VisualisationCustom

/-- A cell of a dataframe: a numeric value, a text value, or a missing/null
marker (pandas NaN / None). -/
inductive Cell where
  | numCell (v : Int)
  | textCell (s : String)
  | nullCell
  deriving DecidableEq, Repr

/-- An in-memory dataframe: an ordered sequence of named columns, each with
its list of cells (column-major). -/
structure Table where
  cols : List (String × List Cell)
  deriving DecidableEq, Repr

/-- Whether a cell is numeric-or-missing.  A pandas column has a numeric
dtype exactly when every cell is a number or NaN. -/
def cellNumericOrNull : Cell → Bool
  | .numCell _ => true
  | .nullCell => true
  | .textCell _ => false

/-- A column carries a numeric dtype when all of its cells are
numeric-or-missing; this is what `select_dtypes(include=np.number)` keys on. -/
def colIsNumeric (cells : List Cell) : Bool :=
  cells.all cellNumericOrNull

/-- Names of the numeric columns of a table, in column order: the embedding
of `df_viz.select_dtypes(include=np.number).columns` (app.py lines 201, 217,
237, 246). -/
def numericColNames (df : Table) : List String :=
  (df.cols.filter (fun c => colIsNumeric c.2)).map (fun c => c.1)

/-- Two-way column type tag used by the specification. -/
inductive ColType where
  | numeric
  | text
  deriving DecidableEq, Repr

/-- The column-type signature of a table: each column name together with its
inferred two-way type. -/
def colSignature (df : Table) : List (String × ColType) :=
  df.cols.map (fun c => (c.1, if colIsNumeric c.2 then ColType.numeric else ColType.text))

/-! ## Catalog registration (app.py lines 95-106)

```python
dataframes = {}
con = duckdb.connect(database=":memory:")
for f in uploaded_files:
    ...
    table_name = f.name.replace(".", "_").replace(" ", "_")
    dataframes[f.name] = df_tmp
    con.register(table_name, df_tmp)
```
-/

/-- Python `s.replace(old, new)` for a single-character pattern and
single-character replacement: every occurrence of `old` is replaced by
`new`.  Modelled over the character list of the string. -/
def pyReplaceChar (old new : Char) (s : List Char) : List Char :=
  s.map (fun c => if c = old then new else c)

/-- `table_name = f.name.replace(".", "_").replace(" ", "_")`
(app.py line 104): first every dot, then every space, becomes an
underscore. -/
def table_name (s : List Char) : List Char :=
  pyReplaceChar ' ' '_' (pyReplaceChar '.' '_' s)

/-- Python dict assignment `d[k] = v`: overwrite in place when the key is
present, otherwise append preserving insertion order. -/
def dictSet (d : List (List Char × Table)) (k : List Char) (v : Table) :
    List (List Char × Table) :=
  if d.any (fun p => p.1 = k) then
    d.map (fun p => if p.1 = k then (p.1, v) else p)
  else
    d ++ [(k, v)]

/-- `duckdb` `con.register(name, df)`: registering a dataframe under a name
that is already registered silently replaces the previous registration;
no error is raised.  Same overwrite-or-append shape as a dict. -/
def conRegister (con : List (List Char × Table)) (k : List Char) (v : Table) :
    List (List Char × Table) :=
  dictSet con k v

/-- The two registries built by the upload loop: the `dataframes` dict keyed
by display name and the duckdb registrations keyed by sanitized name. -/
structure LoadResult where
  dataframes : List (List Char × Table)
  con : List (List Char × Table)
  deriving DecidableEq, Repr

/-- The upload loop of app.py lines 98-106, folded over the uploaded
`(displayName, table)` pairs. -/
def loadFiles (uploads : List (List Char × Table)) : LoadResult :=
  uploads.foldl
    (fun acc nt =>
      { dataframes := dictSet acc.dataframes nt.1 nt.2
        con := conRegister acc.con (table_name nt.1) nt.2 })
    ⟨[], []⟩

/-! ## Theorems for claims C2 and C7 -/

/-- C2 counterexample: the code derives the identifier for
`"Route Details.csv"` as `"Route_Details_csv"` — no lowercasing and no
suffix stripping — which differs from the claimed `"route_details"`. -/
theorem table_name_route_details_counterexample :
    table_name ("Route Details.csv".toList) = "Route_Details_csv".toList ∧
    "Route_Details_csv".toList ≠ "route_details".toList := by
  constructor
  · decide
  · decide

/-- C2 (amended): the registration step derives the table identifier by
replacing every dot and every space with an underscore, leaving all other
characters (including case and the file-extension letters) untouched; in
particular `"Route Details.csv"` yields `"Route_Details_csv"`. -/
theorem table_name_characterization (s : List Char) :
    table_name s = s.map (fun c => if c = '.' ∨ c = ' ' then '_' else c) ∧
    table_name ("Route Details.csv".toList) = "Route_Details_csv".toList := by
  constructor
  · simp only [table_name, pyReplaceChar, List.map_map]
    apply List.map_congr_left
    intro c _
    by_cases hdot : c = '.'
    · simp [Function.comp, hdot]
    · by_cases hsp : c = ' '
      · simp [Function.comp, hsp]
      · simp [Function.comp, hdot, hsp]
  · decide

/-- C7: the sanitization `table_name` is idempotent: applying it twice gives
the same identifier as applying it once. -/
theorem table_name_idempotent (s : List Char) :
    table_name (table_name s) = table_name s := by
  simp only [table_name, pyReplaceChar, List.map_map]
  apply List.map_congr_left
  intro c _
  by_cases hdot : c = '.'
  · simp [Function.comp, hdot]
  · by_cases hsp : c = ' '
    · simp [Function.comp, hsp]
    · simp [Function.comp, hdot, hsp]

/-! ## Session state, query handler, chat (app.py lines 144-178, 262-277) -/

/-- The Streamlit session state fields the core logic touches:
`st.session_state["sql_result"]` (absent until the first successful query)
and `st.session_state.chat_history`. -/
structure SessionState where
  sql_result : Option Table
  chat_history : List (String × String)
  deriving DecidableEq, Repr

/-- `df_viz = st.session_state.get("sql_result", df_base)` (app.py line
145): the table every preview and chart operates on — the cached SQL result
when one exists, otherwise the currently selected base dataframe. -/
def df_viz (sqlResult : Option Table) (df_base : Table) : Table :=
  sqlResult.getD df_base

/-- Modelled from the spec: `activeView(useLatestQuery: bool) -> table`
returns the cached QueryResult when the toggle is set (falling back to the
base dataset when no result is cached) and the selected base Dataset when
it is not.  No such boolean parameter exists in app.py; this definition
exists only to be compared with `df_viz`. -/
def activeViewSpec (useLatestQuery : Bool) (sqlResult : Option Table)
    (df_base : Table) : Table :=
  if useLatestQuery then sqlResult.getD df_base else df_base

/-- The Run Query handler (app.py lines 172-178):

```python
try:
    result = con.execute(sql_query).df()
    st.session_state["sql_result"] = result
    st.success(...)
except Exception as e:
    st.error(str(e))
```

`exec` stands for `con.execute(q).df()`, which either materializes a
dataframe or raises; the handler stores the result only on success and
returns the error message (shown via `st.error`) on failure. -/
def runQuery (exec : String → Except String Table) (q : String)
    (st : SessionState) : SessionState × Option String :=
  match exec q with
  | .ok r => ({ st with sql_result := some r }, none)
  | .error e => (st, some e)

/-- `st.session_state.chat_history.append((role, msg))` (app.py lines
271-274): a single append to the end of the transcript. -/
def appendChat (hist : List (String × String)) (role msg : String) :
    List (String × String) :=
  hist ++ [(role, msg)]

/-- The fixed assistant reply appended after every question (app.py line
273). -/
def placeholderReply : String :=
  "LLM integration coming next (SQL generation)."

/-- The Ask handler (app.py lines 269-274): when the question is non-empty
(Python truthiness of `if question:`), append the user question and the
placeholder assistant reply; otherwise leave the transcript alone. -/
def askHandler (hist : List (String × String)) (question : String) :
    List (String × String) :=
  if question = "" then hist
  else appendChat (appendChat hist "You" question) "Assistant" placeholderReply

/-! ## Theorems for claims C4, C5, C6, C10 -/

/-- C4: a failed query execution leaves the cached result unchanged.  After
a successful execution of `q1` stores `r1`, a failing execution of `q2`
surfaces the error message, leaves `sql_result` at `some r1`, and
`df_viz` still returns `r1` for every base dataframe. -/
theorem failed_query_preserves_cached_result
    (exec : String → Except String Table) (q1 q2 : String) (r1 : Table)
    (e : String) (st : SessionState)
    (h1 : exec q1 = .ok r1) (h2 : exec q2 = .error e) :
    (runQuery exec q2 (runQuery exec q1 st).1).1.sql_result = some r1 ∧
    (runQuery exec q2 (runQuery exec q1 st).1).2 = some e ∧
    (∀ base : Table,
      df_viz (runQuery exec q2 (runQuery exec q1 st).1).1.sql_result base = r1) := by
  simp [runQuery, h1, h2, df_viz]

/-- C4 witness: with a concrete executor that succeeds on `"good"` and
fails on `"bad"`, the failed second query leaves the first result cached. -/
theorem failed_query_preserves_cached_result_witness :
    (runQuery (fun q => if q = "good" then .ok (Table.mk [("a", [Cell.numCell 1])]) else .error "Parser Error")
      "bad"
      (runQuery (fun q => if q = "good" then .ok (Table.mk [("a", [Cell.numCell 1])]) else .error "Parser Error")
        "good" ⟨none, []⟩).1).1.sql_result = some (Table.mk [("a", [Cell.numCell 1])]) ∧
    (runQuery (fun q => if q = "good" then .ok (Table.mk [("a", [Cell.numCell 1])]) else .error "Parser Error")
      "bad"
      (runQuery (fun q => if q = "good" then .ok (Table.mk [("a", [Cell.numCell 1])]) else .error "Parser Error")
        "good" ⟨none, []⟩).1).2 = some "Parser Error" ∧
    (∀ base : Table,
      df_viz (runQuery (fun q => if q = "good" then .ok (Table.mk [("a", [Cell.numCell 1])]) else .error "Parser Error")
        "bad"
        (runQuery (fun q => if q = "good" then .ok (Table.mk [("a", [Cell.numCell 1])]) else .error "Parser Error")
          "good" ⟨none, []⟩).1).1.sql_result base = Table.mk [("a", [Cell.numCell 1])]) :=
  failed_query_preserves_cached_result
    (fun q => if q = "good" then .ok (Table.mk [("a", [Cell.numCell 1])]) else .error "Parser Error")
    "good" "bad" (Table.mk [("a", [Cell.numCell 1])]) "Parser Error" ⟨none, []⟩
    (by rfl) (by rfl)

/-- C5 counterexample: `df_viz` takes no `useLatestQuery` toggle — with a
cached result `t1` it returns `t1` for every base, so the raw-data mode the
claimed `activeView(false)` would give (returning the base `t2`) is
unreachable in the code. -/
theorem no_raw_data_toggle_counterexample :
    df_viz (some (Table.mk [("a", [Cell.numCell 1])]))
        (Table.mk [("b", [Cell.numCell 2])]) =
      Table.mk [("a", [Cell.numCell 1])] ∧
    activeViewSpec false (some (Table.mk [("a", [Cell.numCell 1])]))
        (Table.mk [("b", [Cell.numCell 2])]) =
      Table.mk [("b", [Cell.numCell 2])] ∧
    Table.mk [("a", [Cell.numCell 1])] ≠ Table.mk [("b", [Cell.numCell 2])] := by
  refine ⟨rfl, rfl, by decide⟩

/-- C5 (amended): the view function takes no boolean toggle: it
unconditionally returns the cached QueryResult whenever one exists and the
selected base Dataset only when no query has succeeded yet; it coincides
with the spec's `activeView` at `useLatestQuery = true`. -/
theorem df_viz_always_prefers_cached (sqlResult : Option Table) (df_base : Table) :
    df_viz sqlResult df_base = activeViewSpec true sqlResult df_base ∧
    (∀ t : Table, df_viz (some t) df_base = t) ∧
    df_viz none df_base = df_base := by
  refine ⟨rfl, fun t => rfl, rfl⟩

/-- C6: for a non-empty question the Ask handler appends exactly the user
entry followed by the assistant entry at the end of the transcript — the
prior history is kept verbatim in order, the length grows by exactly two,
and each single `appendChat` call grows any transcript of length `n` to
length `n + 1` while preserving it. -/
theorem chat_transcript_append_only (hist : List (String × String))
    (q : String) (hq : q ≠ "") :
    askHandler hist q = hist ++ [("You", q), ("Assistant", placeholderReply)] ∧
    (askHandler hist q).length = hist.length + 2 ∧
    (∀ (h : List (String × String)) (role msg : String),
      appendChat h role msg = h ++ [(role, msg)] ∧
      (appendChat h role msg).length = h.length + 1) := by
  refine ⟨?_, ?_, fun h role msg => ⟨rfl, by simp [appendChat]⟩⟩
  · simp [askHandler, hq, appendChat]
  · simp [askHandler, hq, appendChat]

/-- C6 witness: a concrete non-empty question appended to a one-entry
transcript. -/
theorem chat_transcript_append_only_witness :
    askHandler [("You", "hi")] "total students per route" =
      [("You", "hi"), ("You", "total students per route"),
        ("Assistant", placeholderReply)] ∧
    (askHandler [("You", "hi")] "total students per route").length =
      [("You", "hi")].length + 2 ∧
    (∀ (h : List (String × String)) (role msg : String),
      appendChat h role msg = h ++ [(role, msg)] ∧
      (appendChat h role msg).length = h.length + 1) :=
  chat_transcript_append_only [("You", "hi")] "total students per route"
    (by decide)

/-- C10: submitting Ask with the empty question leaves the transcript
exactly unchanged — zero entries are appended. -/
theorem empty_question_leaves_transcript (hist : List (String × String)) :
    askHandler hist "" = hist := by
  simp [askHandler]

/-! ## Numeric coercion and chart dispatch (app.py lines 187-252)

The chart to render is *chosen by the user* in the sidebar selectbox
(app.py lines 115-124) among five options; the `if chart_type == ...`
cascade at lines 187-252 dispatches on that choice, never on the column
types of the data. -/

/-- Modelled numeric parsing for `pd.to_numeric` on a text cell: an
optional minus sign followed by one or more decimal digits parses to that
integer; any other string fails to parse. -/
def toNumericParse (s : String) : Option Int :=
  match s.toList with
  | '-' :: rest =>
    if rest ≠ [] ∧ rest.all Char.isDigit then
      some (-(Int.ofNat (rest.foldl (fun a c => a * 10 + (c.toNat - '0'.toNat)) 0)))
    else none
  | cs =>
    if cs ≠ [] ∧ cs.all Char.isDigit then
      some (Int.ofNat (cs.foldl (fun a c => a * 10 + (c.toNat - '0'.toNat)) 0))
    else none

/-- `pd.to_numeric(col, errors="coerce")` applied to one cell: numbers pass
through, missing values stay missing, and text either parses to a number or
becomes the null marker (NaN) instead of raising. -/
def toNumericCoerce : Cell → Cell
  | .numCell v => .numCell v
  | .nullCell => .nullCell
  | .textCell s =>
    match toNumericParse s with
    | some v => .numCell v
    | none => .nullCell

/-- `df_viz[y] = pd.to_numeric(df_viz[y], errors="coerce")` (app.py line
194): every column named `y` has its cells replaced by their coercions;
all other columns are kept as they are. -/
def coerceColumn (df : Table) (y : String) : Table :=
  ⟨df.cols.map (fun c => if c.1 = y then (c.1, c.2.map toNumericCoerce) else c)⟩

/-- The five options of the `Visualization` selectbox (app.py lines
115-124). -/
inductive ChartChoice where
  | barChart
  | scatterPlot
  | radarChart
  | pairPlot
  | corrHeatmap
  deriving DecidableEq, Repr

/-- The families of figures the five branches emit. -/
inductive ChartFamily where
  | bar
  | scatter
  | radar
  | pair
  | heatmap
  deriving DecidableEq, Repr

/-- What one pass through the visualization section produces: a figure, a
`st.warning` message with no figure, or nothing at all (a branch whose
widgets did not yet select enough inputs renders no figure). -/
inductive RenderOutcome where
  | chart (fam : ChartFamily)
  | warning (msg : String)
  | noChart
  deriving DecidableEq, Repr

/-- The widget inputs the chart branches read: x/y axis selections, the
radar category column, the multiselected numeric metrics, and the chosen
category value. -/
structure UiInputs where
  x : String
  y : String
  cat : String
  metrics : List String
  catValue : Cell
  deriving DecidableEq, Repr

/-- The Bar Chart branch (app.py lines 187-197): coerces the selected
y column in place and always renders a bar figure. -/
def barBranch (df : Table) (y : String) : Table × RenderOutcome :=
  (coerceColumn df y, .chart .bar)

/-- The Scatter Plot branch (app.py lines 199-210): renders only when at
least two numeric columns exist, otherwise warns. -/
def scatterBranch (df : Table) : Table × RenderOutcome :=
  if 2 ≤ (numericColNames df).length then (df, .chart .scatter)
  else (df, .warning "Need at least two numeric columns.")

/-- Select a named column of an association list (Python `d[k]` /
`df[col]`), `none` when the key is absent. -/
def lookupCol {β : Type} (k : String) : List (String × β) → Option β
  | [] => none
  | p :: t => if p.1 = k then some p.2 else lookupCol k t

/-- The Radar Chart branch (app.py lines 212-233): renders only when some
metrics are multiselected and a row matches the chosen category value;
otherwise it silently renders nothing. -/
def radarBranch (df : Table) (cat : String) (metrics : List String)
    (catValue : Cell) : Table × RenderOutcome :=
  if metrics.isEmpty then (df, .noChart)
  else
    match lookupCol cat df.cols with
    | none => (df, .noChart)
    | some cells =>
      if cells.contains catValue then (df, .chart .radar) else (df, .noChart)

/-- The Pair Plot branch (app.py lines 235-242): needs at least two numeric
columns, otherwise warns. -/
def pairPlotBranch (df : Table) : Table × RenderOutcome :=
  if 2 ≤ (numericColNames df).length then (df, .chart .pair)
  else (df, .warning "Not enough numeric columns.")

/-- The Correlation Heatmap branch (app.py lines 244-252): needs at least
two numeric columns, otherwise warns. -/
def corrHeatmapBranch (df : Table) : Table × RenderOutcome :=
  if 2 ≤ (numericColNames df).length then (df, .chart .heatmap)
  else (df, .warning "Not enough numeric columns.")

/-- The `if chart_type == ...` cascade (app.py lines 187-252): dispatch on
the user's selectbox choice.  Returns the (possibly mutated) viewed table
and the render outcome. -/
def chartDispatch (choice : ChartChoice) (ui : UiInputs) (df : Table) :
    Table × RenderOutcome :=
  match choice with
  | .barChart => barBranch df ui.y
  | .scatterPlot => scatterBranch df
  | .radarChart => radarBranch df ui.cat ui.metrics ui.catValue
  | .pairPlot => pairPlotBranch df
  | .corrHeatmap => corrHeatmapBranch df

/-- The objects `df_viz` can alias: the loaded dataframes keyed by display
name and the cached SQL result. -/
structure AppState where
  dataframes : List (String × Table)
  sql_result : Option Table
  deriving DecidableEq, Repr

/-- The table the preview and charts operate on: `df_viz` aliases
`st.session_state["sql_result"]` when present, else
`dataframes[selected_file]` (app.py lines 144-145). -/
def activeTable (st : AppState) (selectedFile : String) : Option Table :=
  match st.sql_result with
  | some r => some r
  | none => lookupCol selectedFile st.dataframes

/-- The Bar Chart branch as a state transformer: since `df_viz` is a
reference to either the cached result or the selected base dataframe, the
in-place assignment `df_viz[y] = pd.to_numeric(...)` mutates that very
object in the session. -/
def barBranchEffect (st : AppState) (selectedFile y : String) : AppState :=
  match st.sql_result with
  | some r => { st with sql_result := some (coerceColumn r y) }
  | none =>
    { st with
      dataframes := st.dataframes.map (fun p =>
        if p.1 = selectedFile then (p.1, coerceColumn p.2 y) else p) }

/-! ## Association-list lookup helper lemmas -/

/-- Looking up the overwritten key after mapping an overwrite-at-`k` over an
association list yields the transformed value. -/
theorem lookup_map_overwrite {β : Type} (l : List (String × β)) (k : String)
    (f : β → β) :
    lookupCol k (l.map (fun p => if p.1 = k then (p.1, f p.2) else p)) =
      (lookupCol k l).map f := by
  induction l with
  | nil => rfl
  | cons p t ih =>
    by_cases h : p.1 = k
    · simp [lookupCol, h, ih]
    · simp [lookupCol, h, ih]

/-- Looking up any other key after mapping an overwrite-at-`k` over an
association list is unchanged. -/
theorem lookup_map_overwrite_ne {β : Type} (l : List (String × β))
    (k c : String) (f : β → β) (hck : c ≠ k) :
    lookupCol c (l.map (fun p => if p.1 = k then (p.1, f p.2) else p)) =
      lookupCol c l := by
  induction l with
  | nil => rfl
  | cons p t ih =>
    by_cases h : p.1 = k
    · have hcp : ¬p.1 = c := fun hc => hck ((hc.symm).trans h)
      simp [lookupCol, h, hcp, Ne.symm hck, ih]
    · by_cases hcp : p.1 = c
      · simp [lookupCol, h, hcp, hck, ih]
      · simp [lookupCol, h, hcp, ih]

/-! ## Theorems for claims C1, C3, C8, C9 -/

/-- C1 counterexample: app.py has no column-signature classifier.  On a
table whose signature is exactly one text column and three numeric columns
the rendered family follows the user's selectbox choice: Correlation
Heatmap renders a heatmap (reachable on exactly the signature the claim
says yields radar, not heatmap), Bar Chart renders a bar, and Radar Chart
with no metrics multiselected renders nothing at all. -/
theorem no_signature_classifier_counterexample :
    colSignature (Table.mk [("c1", [Cell.textCell "a"]), ("c2", [Cell.numCell 1]),
        ("c3", [Cell.numCell 2]), ("c4", [Cell.numCell 3])]) =
      [("c1", ColType.text), ("c2", ColType.numeric), ("c3", ColType.numeric),
        ("c4", ColType.numeric)] ∧
    (chartDispatch .corrHeatmap
        (UiInputs.mk "c1" "c2" "c1" ["c2", "c3", "c4"] (Cell.textCell "a"))
        (Table.mk [("c1", [Cell.textCell "a"]), ("c2", [Cell.numCell 1]),
          ("c3", [Cell.numCell 2]), ("c4", [Cell.numCell 3])])).2 =
      RenderOutcome.chart ChartFamily.heatmap ∧
    (chartDispatch .barChart
        (UiInputs.mk "c1" "c2" "c1" ["c2", "c3", "c4"] (Cell.textCell "a"))
        (Table.mk [("c1", [Cell.textCell "a"]), ("c2", [Cell.numCell 1]),
          ("c3", [Cell.numCell 2]), ("c4", [Cell.numCell 3])])).2 =
      RenderOutcome.chart ChartFamily.bar ∧
    (chartDispatch .radarChart
        (UiInputs.mk "c1" "c2" "c1" [] (Cell.textCell "a"))
        (Table.mk [("c1", [Cell.textCell "a"]), ("c2", [Cell.numCell 1]),
          ("c3", [Cell.numCell 2]), ("c4", [Cell.numCell 3])])).2 =
      RenderOutcome.noChart := by
  refine ⟨by decide, by decide, by decide, by decide⟩

/-- C1 (amended): the chart family is the user's selectbox choice among
Bar Chart, Scatter Plot, Radar Chart, Pair Plot and Correlation Heatmap,
and the dispatch deterministically follows that choice whenever the chosen
branch's inputs suffice: on any table with at least two numeric columns
(in particular one text plus three numeric columns) every one of heatmap,
scatter, pair, bar and — given selected metrics and a category value
present in the category column — radar is rendered by the corresponding
choice. -/
theorem chart_family_follows_user_choice (df : Table) (ui : UiInputs)
    (cells : List Cell)
    (h2 : 2 ≤ (numericColNames df).length)
    (hm : ui.metrics ≠ [])
    (hc : lookupCol ui.cat df.cols = some cells)
    (hv : cells.contains ui.catValue = true) :
    (chartDispatch .corrHeatmap ui df).2 = RenderOutcome.chart ChartFamily.heatmap ∧
    (chartDispatch .scatterPlot ui df).2 = RenderOutcome.chart ChartFamily.scatter ∧
    (chartDispatch .pairPlot ui df).2 = RenderOutcome.chart ChartFamily.pair ∧
    (chartDispatch .barChart ui df).2 = RenderOutcome.chart ChartFamily.bar ∧
    (chartDispatch .radarChart ui df).2 = RenderOutcome.chart ChartFamily.radar := by
  refine ⟨?_, ?_, ?_, ?_, ?_⟩
  · simp [chartDispatch, corrHeatmapBranch, h2]
  · simp [chartDispatch, scatterBranch, h2]
  · simp [chartDispatch, pairPlotBranch, h2]
  · simp [chartDispatch, barBranch]
  · have hv2 : ui.catValue ∈ cells := by simpa using hv
    simp [chartDispatch, radarBranch, hm, hc, hv2]

/-- C1 witness: the one-text-three-numeric table with metrics selected and
a present category value: each selectbox choice renders its own family. -/
theorem chart_family_follows_user_choice_witness :
    (chartDispatch .corrHeatmap
        (UiInputs.mk "c1" "c2" "c1" ["c2", "c3", "c4"] (Cell.textCell "b"))
        (Table.mk [("c1", [Cell.textCell "b"]), ("c2", [Cell.numCell 1]),
          ("c3", [Cell.numCell 2]), ("c4", [Cell.numCell 3])])).2 =
      RenderOutcome.chart ChartFamily.heatmap ∧
    (chartDispatch .scatterPlot
        (UiInputs.mk "c1" "c2" "c1" ["c2", "c3", "c4"] (Cell.textCell "b"))
        (Table.mk [("c1", [Cell.textCell "b"]), ("c2", [Cell.numCell 1]),
          ("c3", [Cell.numCell 2]), ("c4", [Cell.numCell 3])])).2 =
      RenderOutcome.chart ChartFamily.scatter ∧
    (chartDispatch .pairPlot
        (UiInputs.mk "c1" "c2" "c1" ["c2", "c3", "c4"] (Cell.textCell "b"))
        (Table.mk [("c1", [Cell.textCell "b"]), ("c2", [Cell.numCell 1]),
          ("c3", [Cell.numCell 2]), ("c4", [Cell.numCell 3])])).2 =
      RenderOutcome.chart ChartFamily.pair ∧
    (chartDispatch .barChart
        (UiInputs.mk "c1" "c2" "c1" ["c2", "c3", "c4"] (Cell.textCell "b"))
        (Table.mk [("c1", [Cell.textCell "b"]), ("c2", [Cell.numCell 1]),
          ("c3", [Cell.numCell 2]), ("c4", [Cell.numCell 3])])).2 =
      RenderOutcome.chart ChartFamily.bar ∧
    (chartDispatch .radarChart
        (UiInputs.mk "c1" "c2" "c1" ["c2", "c3", "c4"] (Cell.textCell "b"))
        (Table.mk [("c1", [Cell.textCell "b"]), ("c2", [Cell.numCell 1]),
          ("c3", [Cell.numCell 2]), ("c4", [Cell.numCell 3])])).2 =
      RenderOutcome.chart ChartFamily.radar :=
  chart_family_follows_user_choice
    (Table.mk [("c1", [Cell.textCell "b"]), ("c2", [Cell.numCell 1]),
      ("c3", [Cell.numCell 2]), ("c4", [Cell.numCell 3])])
    (UiInputs.mk "c1" "c2" "c1" ["c2", "c3", "c4"] (Cell.textCell "b"))
    [Cell.textCell "b"] (by decide) (by decide) (by decide) (by decide)

/-- C3 counterexample: the upload loop performs no duplicate check.  The
claimed example does not even collide (`a.csv` and `a.xlsx` sanitize to
the distinct `a_csv` and `a_xlsx`), and for two names that genuinely
collide (`"a b.csv"` and `"a.b.csv"` both sanitize to `a_b_csv`) the
second registration silently replaces the first table in the duckdb
catalog — no error, catalog changed. -/
theorem duplicate_identifier_overwrites_counterexample :
    table_name ("a.csv".toList) ≠ table_name ("a.xlsx".toList) ∧
    table_name ("a b.csv".toList) = table_name ("a.b.csv".toList) ∧
    (loadFiles [("a b.csv".toList, Table.mk [("a", [Cell.numCell 1])]),
        ("a.b.csv".toList, Table.mk [("a", [Cell.numCell 2])])]).con =
      [("a_b_csv".toList, Table.mk [("a", [Cell.numCell 2])])] ∧
    Table.mk [("a", [Cell.numCell 1])] ≠ Table.mk [("a", [Cell.numCell 2])] := by
  refine ⟨by decide, by decide, by decide, by decide⟩

/-- C3 (amended): registration never fails: when two uploads derive the
same sanitized identifier, the second `con.register` silently replaces the
first registration, leaving a single entry holding the second table under
that identifier. -/
theorem colliding_identifier_silently_overwrites (n1 n2 : List Char)
    (t1 t2 : Table) (hcoll : table_name n1 = table_name n2) :
    (loadFiles [(n1, t1), (n2, t2)]).con = [(table_name n2, t2)] := by
  show dictSet (dictSet [] (table_name n1) t1) (table_name n2) t2 =
    [(table_name n2, t2)]
  rw [hcoll]
  simp [dictSet]

/-- C3 witness: the colliding pair `"a b.csv"` / `"a.b.csv"`. -/
theorem colliding_identifier_silently_overwrites_witness :
    (loadFiles [("a b.csv".toList, Table.mk [("a", [Cell.numCell 1])]),
        ("a.b.csv".toList, Table.mk [("a", [Cell.numCell 2])])]).con =
      [(table_name ("a.b.csv".toList), Table.mk [("a", [Cell.numCell 2])])] :=
  colliding_identifier_silently_overwrites ("a b.csv".toList) ("a.b.csv".toList)
    (Table.mk [("a", [Cell.numCell 1])]) (Table.mk [("a", [Cell.numCell 2])])
    (by decide)

/-- C8: when the active table has fewer than two numeric columns and
Scatter Plot is selected, the branch emits the warning message, renders no
chart of any family, and leaves the table untouched — the dispatch returns
normally, so the session continues. -/
theorem scatter_insufficient_columns_warning (df : Table) (ui : UiInputs)
    (h : (numericColNames df).length < 2) :
    chartDispatch .scatterPlot ui df =
      (df, RenderOutcome.warning "Need at least two numeric columns.") ∧
    ∀ fam : ChartFamily,
      (chartDispatch .scatterPlot ui df).2 ≠ RenderOutcome.chart fam := by
  have hn : ¬2 ≤ (numericColNames df).length := by omega
  refine ⟨by simp [chartDispatch, scatterBranch, hn], ?_⟩
  intro fam
  simp [chartDispatch, scatterBranch, hn]

/-- C8 witness: one text column and a single numeric column: Scatter Plot
warns instead of rendering. -/
theorem scatter_insufficient_columns_warning_witness :
    chartDispatch .scatterPlot
        (UiInputs.mk "name" "v" "name" [] Cell.nullCell)
        (Table.mk [("name", [Cell.textCell "x"]), ("v", [Cell.numCell 1])]) =
      (Table.mk [("name", [Cell.textCell "x"]), ("v", [Cell.numCell 1])],
        RenderOutcome.warning "Need at least two numeric columns.") ∧
    ∀ fam : ChartFamily,
      (chartDispatch .scatterPlot
          (UiInputs.mk "name" "v" "name" [] Cell.nullCell)
          (Table.mk [("name", [Cell.textCell "x"]), ("v", [Cell.numCell 1])])).2 ≠
        RenderOutcome.chart fam :=
  scatter_insufficient_columns_warning
    (Table.mk [("name", [Cell.textCell "x"]), ("v", [Cell.numCell 1])])
    (UiInputs.mk "name" "v" "name" [] Cell.nullCell) (by decide)

/-- C9: rendering a bar chart mutates the viewed table in place: whichever
object `df_viz` aliases (the cached query result, else the selected base
dataframe) ends up with its y column replaced cell-by-cell by the
`to_numeric` coercion — unparseable text becomes the null marker, numbers
pass through — while every other column of that table is unchanged. -/
theorem bar_chart_mutates_viewed_table (st : AppState)
    (selectedFile y : String) (t : Table)
    (hview : activeTable st selectedFile = some t) :
    activeTable (barBranchEffect st selectedFile y) selectedFile =
      some (coerceColumn t y) ∧
    lookupCol y (coerceColumn t y).cols =
      (lookupCol y t.cols).map (List.map toNumericCoerce) ∧
    (∀ c, c ≠ y → lookupCol c (coerceColumn t y).cols = lookupCol c t.cols) ∧
    (∀ s : String, toNumericParse s = none →
      toNumericCoerce (Cell.textCell s) = Cell.nullCell) ∧
    (∀ v : Int, toNumericCoerce (Cell.numCell v) = Cell.numCell v) := by
  refine ⟨?_, ?_, ?_, ?_, fun v => rfl⟩
  · cases hsql : st.sql_result with
    | some r =>
      have ht : r = t := by simpa [activeTable, hsql] using hview
      subst ht
      simp [barBranchEffect, activeTable, hsql]
    | none =>
      have hbase : lookupCol selectedFile st.dataframes = some t := by
        simpa [activeTable, hsql] using hview
      simp only [barBranchEffect, activeTable, hsql]
      rw [lookup_map_overwrite st.dataframes selectedFile
        (fun tb => coerceColumn tb y), hbase]
      rfl
  · exact lookup_map_overwrite t.cols y (List.map toNumericCoerce)
  · intro c hc
    exact lookup_map_overwrite_ne t.cols y c (List.map toNumericCoerce) hc
  · intro s hs
    simp [toNumericCoerce, hs]

/-- C9 witness: a base dataframe whose y column holds the unparseable text
`"oops"` and the parseable text `"12"`: after the bar branch the stored
dataframe's y column is `[null, 12]` and the other column is untouched. -/
theorem bar_chart_mutates_viewed_table_witness :
    activeTable
        (barBranchEffect
          (AppState.mk
            [("data.csv",
              Table.mk [("a", [Cell.textCell "x", Cell.textCell "y"]),
                ("b", [Cell.textCell "oops", Cell.textCell "12"])])]
            none)
          "data.csv" "b")
        "data.csv" =
      some (coerceColumn
        (Table.mk [("a", [Cell.textCell "x", Cell.textCell "y"]),
          ("b", [Cell.textCell "oops", Cell.textCell "12"])]) "b") ∧
    lookupCol "b" (coerceColumn
        (Table.mk [("a", [Cell.textCell "x", Cell.textCell "y"]),
          ("b", [Cell.textCell "oops", Cell.textCell "12"])]) "b").cols =
      (lookupCol "b" (Table.mk [("a", [Cell.textCell "x", Cell.textCell "y"]),
          ("b", [Cell.textCell "oops", Cell.textCell "12"])]).cols).map
        (List.map toNumericCoerce) ∧
    (∀ c, c ≠ "b" →
      lookupCol c (coerceColumn
          (Table.mk [("a", [Cell.textCell "x", Cell.textCell "y"]),
            ("b", [Cell.textCell "oops", Cell.textCell "12"])]) "b").cols =
        lookupCol c (Table.mk [("a", [Cell.textCell "x", Cell.textCell "y"]),
          ("b", [Cell.textCell "oops", Cell.textCell "12"])]).cols) ∧
    (∀ s : String, toNumericParse s = none →
      toNumericCoerce (Cell.textCell s) = Cell.nullCell) ∧
    (∀ v : Int, toNumericCoerce (Cell.numCell v) = Cell.numCell v) :=
  bar_chart_mutates_viewed_table
    (AppState.mk
      [("data.csv",
        Table.mk [("a", [Cell.textCell "x", Cell.textCell "y"]),
          ("b", [Cell.textCell "oops", Cell.textCell "12"])])]
      none)
    "data.csv" "b"
    (Table.mk [("a", [Cell.textCell "x", Cell.textCell "y"]),
      ("b", [Cell.textCell "oops", Cell.textCell "12"])])
    (by decide)

end VisualisationCustom
